import Mathlib

/-!
Verification of the Mission Control real-time coordination layer:
shallow embedding of the task/assignment state machine, broadcast hub,
event bus, external-session reconciler and coalescing status cache,
with theorems settling the specification claims.
-/

namespace AgenticOps

/-- JS truthiness of an optional string field: `undefined`/`null` and the
empty string are falsy, every other string is truthy.  Used wherever the
source guards with `if (x)` or `x || y` on a string-valued field. -/
def jsTruthyS : Option String → Bool
  | some s => s != ""
  | none => false

/-- Task record as read and written by the backend handlers
(mission-control/backend: fields touched by report / verify / reopen /
assign).  Timestamps are modelled as natural numbers. -/
structure Task where
  status : String
  progress : Int
  assignee : Option String
  assignedBy : Option String
  verified : Bool
  verifiedBy : Option String
  verifiedAt : Option Nat
  completedAt : Option Nat
  deriving DecidableEq

/-- Project record: the two fields the task routes write
(`progress`, `status`). -/
structure Project where
  status : String
  progress : Nat
  deriving DecidableEq

/-- Status derivation of POST /api/tasks/:taskId/report
(backend/src/index.js lines 750-757): an explicit truthy `status` wins;
otherwise, when `progress` is supplied, `progress >= 100` gives `done`,
`progress > 0` gives `in_progress`, and anything else keeps the task's
current status. -/
def reportNewStatus (taskStatus : String) (status : Option String) (progress : Option Int) : String :=
  if jsTruthyS status then status.getD taskStatus
  else
    match progress with
    | some p => if 100 ≤ p then "done" else if 0 < p then "in_progress" else taskStatus
    | none => taskStatus

/-- Task update performed by POST /api/tasks/:taskId/report
(backend/src/index.js lines 759-769): writes the derived status, the
supplied progress when present, claims the task for the reporting agent
when the task has no (truthy) assignee, and stamps `completedAt` whenever
the new status is `done`. -/
def reportTask (task : Task) (agentName status : Option String) (progress : Option Int) (now : Nat) : Task :=
  { task with
    status := reportNewStatus task.status status progress
    progress := match progress with | some p => p | none => task.progress
    assignee := if jsTruthyS agentName && !(jsTruthyS task.assignee) then agentName else task.assignee
    completedAt := if reportNewStatus task.status status progress == "done" then some now else task.completedAt }

/-- Task update performed by POST /api/tasks/:taskId/verify
(backend/src/index.js lines 1074-1077): unconditionally sets the verified
fields (`verifiedBy` falls back to ATLAS); no other field is written and
no check of the current status is made. -/
def verifyTask (task : Task) (agentName : Option String) (now : Nat) : Task :=
  { task with
    verified := true
    verifiedBy := some (if jsTruthyS agentName then agentName.getD "ATLAS" else "ATLAS")
    verifiedAt := some now }

/-- Task update performed by POST /api/tasks/:taskId/reopen
(backend/src/index.js lines 1098-1101). -/
def reopenTask (task : Task) : Task :=
  { task with
    status := "in_progress"
    verified := false
    verifiedBy := none
    verifiedAt := none
    completedAt := none
    progress := 0 }

/-- Task update performed by POST /api/tasks/:taskId/assign
(backend/src/index.js lines 633-642). -/
def assignTask (task : Task) (assignedTo assignedBy : Option String) : Task :=
  { task with assignee := assignedTo, assignedBy := assignedBy, status := "assigned" }

/-- Rounding used by `Math.round((done / total) * 100)` on nonnegative
arguments: round-half-up of `num / den`. -/
def roundHalfUp (num den : Nat) : Nat := (2 * num + den) / (2 * den)

/-- Project recomputation block of PUT /tasks/:taskId
(routes/tasks.js lines 149-176): progress is the rounded done-ratio over
all of the project's tasks (counting statuses `done` and `completed`),
and the project status is auto-derived unless it is manually held at
`blocked` or `on_hold`. -/
def recomputeProject (statuses : List String) (project : Project) : Project :=
  let done := (statuses.filter (fun s => s == "done" || s == "completed")).length
  let total := statuses.length
  let progress := roundHalfUp (100 * done) total
  let autoStatus : Option String :=
    if project.status == "blocked" || project.status == "on_hold" then none
    else if done == 0 then some "not_started"
    else if done == total then some "completed"
    else some "in_progress"
  { progress := progress, status := match autoStatus with | some s => s | none => project.status }

/-- PUT /tasks/:taskId (routes/tasks.js lines 102-184), restricted to the
status field and the project effect: the task's status is overwritten when
a truthy status is supplied, and the owning project is recomputed exactly
when that status differs from the stored one.  `statusesAfter` is the list
of statuses of all the project's tasks after the update, as returned by
the record store. -/
def putTaskEndpoint (existing : Task) (reqStatus : Option String) (statusesAfter : List String)
    (project : Project) : Task × Project :=
  let task := { existing with status := if jsTruthyS reqStatus then reqStatus.getD existing.status else existing.status }
  if jsTruthyS reqStatus && !(reqStatus == some existing.status) then
    (task, recomputeProject statusesAfter project)
  else (task, project)

/-- POST /api/tasks/:taskId/report viewed together with the owning project:
the handler (backend/src/index.js lines 739-829) updates only the task, an
activity row and the event bus; it contains no write to the project
record, so the project comes back unchanged. -/
def reportEndpoint (task : Task) (project : Project) (agentName status : Option String)
    (progress : Option Int) (now : Nat) : Task × Project :=
  (reportTask task agentName status progress now, project)

/-- POST /api/tasks/:taskId/verify together with the owning project: the
handler (backend/src/index.js lines 1070-1092) never writes the project. -/
def verifyEndpoint (task : Task) (project : Project) (agentName : Option String) (now : Nat) :
    Task × Project :=
  (verifyTask task agentName now, project)

/-- POST /api/tasks/:taskId/reopen together with the owning project: the
handler (backend/src/index.js lines 1094-1116) never writes the project. -/
def reopenEndpoint (task : Task) (project : Project) : Task × Project :=
  (reopenTask task, project)

/-- POST /api/tasks/:taskId/assign together with the owning project: the
handler (backend/src/index.js lines 603-660) never writes the project. -/
def assignEndpoint (task : Task) (project : Project) (assignedTo assignedBy : Option String) :
    Task × Project :=
  (assignTask task assignedTo assignedBy, project)

/-- Freshly created task (routes/tasks.js lines 60-72 with default status
`pending` and schema-default progress 0, unassigned and unverified). -/
def freshTask : Task :=
  { status := "pending", progress := 0, assignee := none, assignedBy := none,
    verified := false, verifiedBy := none, verifiedAt := none, completedAt := none }

/-- Project in its initial in-progress state with no completed work. -/
def freshProject : Project := { status := "in_progress", progress := 0 }

/-- Claim C7: for a report on an existing task, an explicit status wins;
otherwise progress at least 100 derives status done and stamps completedAt,
progress strictly between 0 and 100 derives in_progress, and progress 0
leaves the status unchanged; a reporting agent claims an unassigned task. -/
theorem report_status_derivation_spec (t : Task) (a : String) (sOpt : Option String)
    (p : Int) (now : Nat) :
    (∀ s, sOpt = some s → s ≠ "" → (reportTask t (some a) sOpt (some p) now).status = s)
    ∧ (sOpt = none → 100 ≤ p →
        (reportTask t (some a) sOpt (some p) now).status = "done"
        ∧ (reportTask t (some a) sOpt (some p) now).completedAt = some now)
    ∧ (sOpt = none → 0 < p → p < 100 →
        (reportTask t (some a) sOpt (some p) now).status = "in_progress")
    ∧ (sOpt = none → p = 0 →
        (reportTask t (some a) sOpt (some p) now).status = t.status)
    ∧ (a ≠ "" → jsTruthyS t.assignee = false →
        (reportTask t (some a) sOpt (some p) now).assignee = some a) := by
  refine ⟨?_, ?_, ?_, ?_, ?_⟩
  · intro s hs hne
    subst hs
    simp [reportTask, reportNewStatus, jsTruthyS, hne]
  · intro hs hp
    subst hs
    simp [reportTask, reportNewStatus, jsTruthyS, hp]
  · intro hs hp hlt
    subst hs
    have h1 : ¬ (100 ≤ p) := by omega
    simp [reportTask, reportNewStatus, jsTruthyS, h1, hp]
  · intro hs hp
    subst hs
    have h1 : ¬ (100 ≤ p) := by omega
    have h2 : ¬ (0 < p) := by omega
    simp [reportTask, reportNewStatus, jsTruthyS, h1, h2]
  · intro ha hassign
    have h1 : jsTruthyS (some a) = true := by simp [jsTruthyS, bne_iff_ne, ha]
    simp [reportTask, h1, hassign]

/-- Witness for report_status_derivation_spec at concrete inputs. -/
theorem report_status_derivation_spec_witness :
    ((reportTask freshTask (some "Scout") (some "blocked") (some 10) 3).status = "blocked")
    ∧ ((reportTask freshTask (some "Scout") none (some 100) 3).status = "done"
        ∧ (reportTask freshTask (some "Scout") none (some 100) 3).completedAt = some 3)
    ∧ ((reportTask freshTask (some "Scout") none (some 45) 3).status = "in_progress")
    ∧ ((reportTask freshTask (some "Scout") none (some 0) 3).status = freshTask.status)
    ∧ ((reportTask freshTask (some "Scout") none (some 45) 3).assignee = some "Scout") := by
  refine ⟨?_, ⟨?_, ?_⟩, ?_, ?_, ?_⟩
  · exact (report_status_derivation_spec freshTask "Scout" (some "blocked") 10 3).1 "blocked" rfl (by decide)
  · exact ((report_status_derivation_spec freshTask "Scout" none 100 3).2.1 rfl (by decide)).1
  · exact ((report_status_derivation_spec freshTask "Scout" none 100 3).2.1 rfl (by decide)).2
  · exact (report_status_derivation_spec freshTask "Scout" none 45 3).2.2.1 rfl (by decide) (by decide)
  · exact (report_status_derivation_spec freshTask "Scout" none 0 3).2.2.2.1 rfl rfl
  · exact (report_status_derivation_spec freshTask "Scout" none 45 3).2.2.2.2 (by decide) (by decide)

/-- Claim C6 counterexample: a report with an explicit status of done on a
fresh task (progress 0) produces status done with progress 0, so the
invariant progress = 100 iff status = done fails on the code. -/
theorem explicit_done_breaks_progress_iff_cex :
    ((reportTask freshTask (some "ATLAS") (some "done") none 0).status = "done")
    ∧ ¬ ((reportTask freshTask (some "ATLAS") (some "done") none 0).progress = 100) := by
  decide

/-- Claim C6 (amended): a report that supplies progress at least 100 and no
explicit status yields status done, the supplied progress and a completedAt
stamp; the biconditional progress = 100 iff status = done does not hold in
general, since an explicit done status leaves progress unchanged. -/
theorem derived_report_done_spec (t : Task) (a : Option String) (p : Int) (now : Nat)
    (hp : 100 ≤ p) :
    (reportTask t a none (some p) now).status = "done"
    ∧ (reportTask t a none (some p) now).progress = p
    ∧ (reportTask t a none (some p) now).completedAt = some now := by
  simp [reportTask, reportNewStatus, jsTruthyS, hp]

/-- Witness for derived_report_done_spec at progress 150. -/
theorem derived_report_done_spec_witness :
    (reportTask freshTask (some "Scout") none (some 150) 9).status = "done"
    ∧ (reportTask freshTask (some "Scout") none (some 150) 9).progress = 150
    ∧ (reportTask freshTask (some "Scout") none (some 150) 9).completedAt = some 9 :=
  derived_report_done_spec freshTask (some "Scout") 150 9 (by decide)

/-- Claim C5 counterexample: the verify endpoint has no status guard, so a
pending (non-done) task is marked verified while its status stays pending. -/
theorem verify_non_done_cex :
    ((verifyTask freshTask (some "ATLAS") 0).verified = true)
    ∧ ((verifyTask freshTask (some "ATLAS") 0).status = "pending")
    ∧ ((verifyTask freshTask (some "ATLAS") 0).status ≠ "done") := by
  decide

/-- Claim C5 (amended): verify sets verified, verifiedBy and verifiedAt and
alters neither status nor progress nor completedAt — for any current task
status; the endpoint performs no status-is-done check, so a non-done task
can be marked verified. -/
theorem verify_sets_fields_keeps_status (t : Task) (a : Option String) (now : Nat) :
    (verifyTask t a now).status = t.status
    ∧ (verifyTask t a now).verified = true
    ∧ (verifyTask t a now).verifiedAt = some now
    ∧ (verifyTask t a now).verifiedBy = some (if jsTruthyS a then a.getD "ATLAS" else "ATLAS")
    ∧ (verifyTask t a now).progress = t.progress
    ∧ (verifyTask t a now).completedAt = t.completedAt := by
  simp [verifyTask]

/-- Claim C4 counterexample: the report operation changes a task's status
to done (progress 100 on the project's only task), yet the owning project
is returned untouched with progress 0, although the claimed recomputation
round(100 x 1 / 1) would give 100. -/
theorem report_does_not_recompute_cex :
    ((reportEndpoint freshTask freshProject (some "Scout") none (some 100) 0).1.status = "done")
    ∧ ((reportEndpoint freshTask freshProject (some "Scout") none (some 100) 0).2 = freshProject)
    ∧ roundHalfUp (100 * 1) 1 = 100
    ∧ freshProject.progress ≠ 100 := by
  decide

/-- Claim C4 (amended): only the direct task update recomputes the owning
project — when it receives a truthy status different from the stored one it
sets progress to round(100 x doneCount / totalCount) (counting statuses done
and completed) and auto-derives the project status unless the project is
blocked or on_hold; assign, report, verify and reopen leave the project
record untouched. -/
theorem putTask_recomputes_project (existing : Task) (s : String) (statuses : List String)
    (project : Project) (hs : s ≠ "") (hne : s ≠ existing.status) (ht : statuses ≠ []) :
    ((putTaskEndpoint existing (some s) statuses project).2.progress =
        roundHalfUp (100 * (statuses.filter (fun st => st == "done" || st == "completed")).length)
          statuses.length)
    ∧ (project.status ≠ "blocked" → project.status ≠ "on_hold" →
        (putTaskEndpoint existing (some s) statuses project).2.status =
          (if (statuses.filter (fun st => st == "done" || st == "completed")).length = 0 then
            "not_started"
          else if (statuses.filter (fun st => st == "done" || st == "completed")).length =
              statuses.length then
            "completed"
          else "in_progress"))
    ∧ (project.status = "blocked" ∨ project.status = "on_hold" →
        (putTaskEndpoint existing (some s) statuses project).2.status = project.status)
    ∧ (∀ agentName stOpt pOpt now, (reportEndpoint existing project agentName stOpt pOpt now).2 = project)
    ∧ (∀ agentName now, (verifyEndpoint existing project agentName now).2 = project)
    ∧ (reopenEndpoint existing project).2 = project
    ∧ (∀ ato aby, (assignEndpoint existing project ato aby).2 = project) := by
  have htr : jsTruthyS (some s) = true := by simp [jsTruthyS, bne_iff_ne, hs]
  have hcond : (jsTruthyS (some s) && !(some s == some existing.status)) = true := by
    simp [htr, hne]
  refine ⟨?_, ?_, ?_, fun _ _ _ _ => rfl, fun _ _ => rfl, rfl, fun _ _ => rfl⟩
  · simp only [putTaskEndpoint, hcond, if_true, recomputeProject]
  · intro hb hh
    have hb2 : (project.status == "blocked") = false := by simp [hb]
    have hh2 : (project.status == "on_hold") = false := by simp [hh]
    simp only [putTaskEndpoint, hcond, if_true, recomputeProject, hb2, hh2, Bool.or_self,
      Bool.false_or]
    by_cases h0 : (statuses.filter (fun st => st == "done" || st == "completed")).length = 0
    · simp [h0]
    · have h0b : ((statuses.filter (fun st => st == "done" || st == "completed")).length == 0) = false := by
        simp [h0]
      by_cases heq : (statuses.filter (fun st => st == "done" || st == "completed")).length = statuses.length
      · simp [h0b, h0, heq, ht]
      · simp [h0b, h0, heq]
  · intro hman
    have hb : (project.status == "blocked" || project.status == "on_hold") = true := by
      rcases hman with h | h <;> simp [h]
    simp only [putTaskEndpoint, hcond, if_true, recomputeProject, hb, if_true]

/-- Witness for putTask_recomputes_project: a two-task project (one done,
one pending) whose task is updated to done gets progress round(100 x 1 / 2)
= 50 and status in_progress. -/
theorem putTask_recomputes_project_witness :
    ((putTaskEndpoint freshTask (some "done") ["done", "pending"] freshProject).2.progress =
        roundHalfUp (100 * ((["done", "pending"] : List String).filter
          (fun st => st == "done" || st == "completed")).length) 2)
    ∧ ((putTaskEndpoint freshTask (some "done") ["done", "pending"] freshProject).2.status =
        "in_progress")
    ∧ ((reportEndpoint freshTask freshProject (some "Scout") none (some 40) 0).2 = freshProject) := by
  refine ⟨?_, ?_, ?_⟩
  · exact (putTask_recomputes_project freshTask "done" ["done", "pending"] freshProject
      (by decide) (by decide) (by decide)).1
  · have h := (putTask_recomputes_project freshTask "done" ["done", "pending"] freshProject
      (by decide) (by decide) (by decide)).2.1 (by decide) (by decide)
    simpa using h
  · exact (putTask_recomputes_project freshTask "done" ["done", "pending"] freshProject
      (by decide) (by decide) (by decide)).2.2.2.1 (some "Scout") none (some 40) 0

/-- Upvote handler of POST /api/projects/:projectId/messages/:messageId/upvote
(backend/src/index.js lines 459-465): if the voter is already in the parsed
upvotes list every occurrence is filtered out, otherwise the voter is
appended. -/
def upvoteVoters (upvotes : List String) (voter : String) : List String :=
  if upvotes.contains voter then upvotes.filter (fun v => v != voter)
  else upvotes ++ [voter]

/-- Claim C9 counterexample: starting from a message already upvoted by
alice, two consecutive upvotes by alice leave alice present in the set,
not absent. -/
theorem double_upvote_present_cex :
    ((["alice"] : List String).contains "alice" = true)
    ∧ ((upvoteVoters (upvoteVoters ["alice"] "alice") "alice").contains "alice" = true) := by
  decide

/-- Claim C9 (amended): upvote toggles the voter's membership (present after
iff absent before) and changes no other voter's membership; two consecutive
upvotes restore the original membership, so they leave the voter absent
exactly when the voter was absent to begin with. -/
theorem upvote_toggle_spec (l : List String) (v w : String) :
    ((upvoteVoters l v).contains v = !(l.contains v))
    ∧ (w ≠ v → (upvoteVoters l v).contains w = l.contains w)
    ∧ (l.contains v = false → upvoteVoters (upvoteVoters l v) v = l) := by
  refine ⟨?_, ?_, ?_⟩
  · by_cases h : v ∈ l
    · have hc : l.contains v = true := by simp [List.contains, List.elem_eq_mem, h]
      have e1 : upvoteVoters l v = l.filter (fun x => x != v) := by
        simp only [upvoteVoters, hc, if_true]
      rw [e1, hc]
      simp [List.contains, List.elem_eq_mem, List.mem_filter]
    · have hc : l.contains v = false := by simp [List.contains, List.elem_eq_mem, h]
      have e1 : upvoteVoters l v = l ++ [v] := by
        simp only [upvoteVoters, hc, Bool.false_eq_true, if_false]
      rw [e1, hc]
      simp [List.contains, List.elem_eq_mem]
  · intro hw
    by_cases h : v ∈ l
    · have hc : l.contains v = true := by simp [List.contains, List.elem_eq_mem, h]
      have e1 : upvoteVoters l v = l.filter (fun x => x != v) := by
        simp only [upvoteVoters, hc, if_true]
      rw [e1]
      simp [List.contains, List.elem_eq_mem, List.mem_filter, bne_iff_ne, hw]
    · have hc : l.contains v = false := by simp [List.contains, List.elem_eq_mem, h]
      have e1 : upvoteVoters l v = l ++ [v] := by
        simp only [upvoteVoters, hc, Bool.false_eq_true, if_false]
      rw [e1]
      simp [List.contains, List.elem_eq_mem, hw]
  · intro h
    have hmem : v ∉ l := by simpa [List.contains, List.elem_eq_mem] using h
    have e1 : upvoteVoters l v = l ++ [v] := by
      simp only [upvoteVoters, h, Bool.false_eq_true, if_false]
    have h2 : (l ++ [v]).contains v = true := by simp [List.contains, List.elem_eq_mem]
    have e2 : upvoteVoters (l ++ [v]) v = (l ++ [v]).filter (fun x => x != v) := by
      simp only [upvoteVoters, h2, if_true]
    rw [e1, e2, List.filter_append]
    have hkeep : ∀ x ∈ l, (x != v) = true := by
      intro x hx
      simp only [bne_iff_ne, ne_eq]
      intro he
      exact hmem (he ▸ hx)
    simp [List.filter_eq_self.mpr hkeep]

/-- Witness for upvote_toggle_spec with voters bob (present) and alice
(absent). -/
theorem upvote_toggle_spec_witness :
    ((upvoteVoters ["bob"] "alice").contains "alice" = !((["bob"] : List String).contains "alice"))
    ∧ ((upvoteVoters ["bob"] "alice").contains "bob" = (["bob"] : List String).contains "bob")
    ∧ (upvoteVoters (upvoteVoters ["bob"] "alice") "alice" = ["bob"]) :=
  ⟨(upvote_toggle_spec ["bob"] "alice" "bob").1,
   (upvote_toggle_spec ["bob"] "alice" "bob").2.1 (by decide),
   (upvote_toggle_spec ["bob"] "alice" "bob").2.2 (by decide)⟩

/-- WebSocket connection as seen by the hub: an identity and the
`readyState` field checked against 1 (OPEN) before sending. -/
structure Conn where
  id : Nat
  readyState : Nat
  deriving DecidableEq

/-- Client registration value stored in the hub's `clients` map
(routes/websocket.js line 8): the connection type, the agent identity for
agent connections, and the declared subscriptions for dashboard clients. -/
structure ClientInfo where
  ctype : String
  agentId : Option String
  subscriptions : Option (List String)
  deriving DecidableEq

/-- JS `Map.set` semantics on the insertion-ordered clients map: replace
the value in place when the key is present, otherwise append. -/
def mapSet (clients : List (Conn × ClientInfo)) (ws : Conn) (info : ClientInfo) :
    List (Conn × ClientInfo) :=
  if clients.any (fun p => p.1 == ws) then
    clients.map (fun p => if p.1 == ws then (ws, info) else p)
  else clients ++ [(ws, info)]

/-- The `dashboard:subscribe` branch of handleMessage (routes/websocket.js
lines 176-181): the client is registered as a dashboard client with
`payload.subscriptions || ['*']`. -/
def dashboardSubscribe (clients : List (Conn × ClientInfo)) (ws : Conn)
    (subscriptions : Option (List String)) : List (Conn × ClientInfo) :=
  mapSet clients ws { ctype := "dashboard", agentId := none, subscriptions := some (subscriptions.getD ["*"]) }

/-- The broadcast function (routes/websocket.js lines 11-23), returning the
connections the serialized envelope is sent to: it loops over every
registered client and sends to each whose readyState is 1 (OPEN).  The
event type goes into the envelope only — no subscription filtering is
performed, and a send error is swallowed per connection. -/
def broadcast (clients : List (Conn × ClientInfo)) (eventType : String) : List Conn :=
  (clients.filter (fun p => p.1.readyState == 1)).map (fun p => p.1)

/-- The sendToAgent function (routes/websocket.js lines 26-36), returning
the connections sent to and the boolean result: it scans the clients map in
insertion order and sends to the first registered connection whose agentId
matches and whose readyState is 1, returning true; if none matches it
returns false having sent nothing. -/
def sendToAgent (clients : List (Conn × ClientInfo)) (agentId : String) : List Conn × Bool :=
  match clients with
  | [] => ([], false)
  | (ws, info) :: rest =>
    if info.agentId == some agentId && ws.readyState == 1 then ([ws], true)
    else sendToAgent rest agentId

/-- Open dashboard connection used in concrete counterexamples. -/
def conn1 : Conn := { id := 1, readyState := 1 }

/-- Claim C2 counterexample: a dashboard client whose declared subscription
set is exactly task still receives an event of kind note:new, because
broadcast never consults the stored subscriptions. -/
theorem task_subscriber_receives_note_cex :
    (conn1 ∈ broadcast (dashboardSubscribe [] conn1 (some ["task"])) "note:new")
    ∧ (∀ p ∈ dashboardSubscribe [] conn1 (some ["task"]), p.2.subscriptions = some ["task"]) := by
  decide

/-- Claim C2 (amended): the hub delivers every published event to every
open connection regardless of the declared subscription set — the
subscriptions recorded by dashboard:subscribe are never consulted by
broadcast.  In particular a client subscribed to the wildcard receives
every published event, and so does a client subscribed only to task. -/
theorem broadcast_ignores_subscriptions (clients : List (Conn × ClientInfo)) (e1 e2 : String) :
    broadcast clients e1 = broadcast clients e2
    ∧ (∀ p ∈ clients, p.1.readyState = 1 → p.1 ∈ broadcast clients e1)
    ∧ (∀ c ∈ broadcast clients e1, ∃ p ∈ clients, p.1 = c ∧ p.1.readyState = 1) := by
  refine ⟨rfl, ?_, ?_⟩
  · intro p hp hr
    simp only [broadcast, List.mem_map, List.mem_filter]
    exact ⟨p, ⟨hp, by simp [hr]⟩, rfl⟩
  · intro c hc
    simp only [broadcast, List.mem_map, List.mem_filter] at hc
    obtain ⟨p, ⟨hp, hr⟩, he⟩ := hc
    exact ⟨p, hp, he, by simpa using hr⟩

/-- Witness for broadcast_ignores_subscriptions on a wildcard subscriber. -/
theorem broadcast_ignores_subscriptions_witness :
    broadcast (dashboardSubscribe [] conn1 none) "task:updated"
      = broadcast (dashboardSubscribe [] conn1 none) "note:new"
    ∧ conn1 ∈ broadcast (dashboardSubscribe [] conn1 none) "task:updated" := by
  refine ⟨(broadcast_ignores_subscriptions (dashboardSubscribe [] conn1 none) "task:updated" "note:new").1, ?_⟩
  exact (broadcast_ignores_subscriptions (dashboardSubscribe [] conn1 none) "task:updated" "note:new").2.1
    (conn1, { ctype := "dashboard", agentId := none, subscriptions := some ["*"] }) (by decide) (by decide)

/-- Claim C10: sendToAgent delivers to at most one connection, namely the
first registered open connection whose agentId matches (in registration
order, as List.find? characterizes); it returns true exactly when such a
connection exists, and when it returns false nothing was sent — even if
matching connections are registered but not open. -/
theorem sendToAgent_spec (clients : List (Conn × ClientInfo)) (agentId : String) :
    ((sendToAgent clients agentId).2 = true ↔
      ∃ p ∈ clients, p.2.agentId = some agentId ∧ p.1.readyState = 1)
    ∧ (sendToAgent clients agentId).1.length ≤ 1
    ∧ (∀ p, clients.find? (fun q => q.2.agentId == some agentId && q.1.readyState == 1) = some p →
        (sendToAgent clients agentId).1 = [p.1] ∧ (sendToAgent clients agentId).2 = true)
    ∧ ((sendToAgent clients agentId).2 = false → (sendToAgent clients agentId).1 = []) := by
  induction clients with
  | nil =>
    refine ⟨by simp [sendToAgent], by simp [sendToAgent], ?_, by simp [sendToAgent]⟩
    intro p hp
    simp [List.find?] at hp
  | cons hd rest ih =>
    obtain ⟨ws, info⟩ := hd
    by_cases hmatch : (info.agentId == some agentId && ws.readyState == 1) = true
    · have hsend : sendToAgent ((ws, info) :: rest) agentId = ([ws], true) := by
        simp only [sendToAgent, hmatch, if_true]
      have hfind : ((ws, info) :: rest).find?
          (fun q => q.2.agentId == some agentId && q.1.readyState == 1) = some (ws, info) := by
        simp [List.find?, hmatch]
      refine ⟨?_, by simp [hsend], ?_, by simp [hsend]⟩
      · simp only [hsend]
        constructor
        · intro _
          refine ⟨(ws, info), List.mem_cons_self _ _, ?_⟩
          simpa [Bool.and_eq_true, beq_iff_eq] using hmatch
        · intro _
          trivial
      · intro p hp
        rw [hfind] at hp
        obtain rfl : p = (ws, info) := by injection hp with h2; exact h2.symm
        simp [hsend]
    · have hsend : sendToAgent ((ws, info) :: rest) agentId = sendToAgent rest agentId := by
        simp only [sendToAgent, hmatch, Bool.false_eq_true, if_false]
      have hfind : ((ws, info) :: rest).find?
            (fun q => q.2.agentId == some agentId && q.1.readyState == 1)
          = rest.find? (fun q => q.2.agentId == some agentId && q.1.readyState == 1) := by
        simp [List.find?, hmatch]
      have hm2 : ¬ (info.agentId = some agentId ∧ ws.readyState = 1) := by
        intro hcon
        exact hmatch (by simp [Bool.and_eq_true, beq_iff_eq, hcon.1, hcon.2])
      refine ⟨?_, ?_, ?_, ?_⟩
      · rw [hsend, ih.1]
        constructor
        · rintro ⟨p, hp, hcond⟩
          exact ⟨p, List.mem_cons_of_mem _ hp, hcond⟩
        · rintro ⟨p, hp, hcond⟩
          rcases List.mem_cons.mp hp with rfl | hp2
          · exact absurd hcond hm2
          · exact ⟨p, hp2, hcond⟩
      · rw [hsend]; exact ih.2.1
      · intro p hp
        rw [hfind] at hp
        rw [hsend]
        exact ih.2.2.1 p hp
      · rw [hsend]; exact ih.2.2.2

/-- Witness for sendToAgent_spec: a closed connection for scout is skipped
and the later open connection receives the send with result true. -/
theorem sendToAgent_spec_witness :
    (sendToAgent [({ id := 2, readyState := 0 }, { ctype := "agent", agentId := some "scout", subscriptions := none }),
                  ({ id := 3, readyState := 1 }, { ctype := "agent", agentId := some "scout", subscriptions := none })] "scout").1
      = [{ id := 3, readyState := 1 }]
    ∧ (sendToAgent [({ id := 2, readyState := 0 }, { ctype := "agent", agentId := some "scout", subscriptions := none }),
                    ({ id := 3, readyState := 1 }, { ctype := "agent", agentId := some "scout", subscriptions := none })] "scout").2
      = true := by
  exact (sendToAgent_spec [({ id := 2, readyState := 0 }, { ctype := "agent", agentId := some "scout", subscriptions := none }),
      ({ id := 3, readyState := 1 }, { ctype := "agent", agentId := some "scout", subscriptions := none })] "scout").2.2.1
    ({ id := 3, readyState := 1 }, { ctype := "agent", agentId := some "scout", subscriptions := none }) (by decide)

/-- Sequential listener invocation of the event bus: `mcEvents` (events.js)
is a plain Node EventEmitter with no error handling added anywhere in the
repository, and Node's emit calls the listeners registered for a kind
synchronously in registration order — when a listener throws, the exception
propagates to the caller of emit and the remaining listeners are not
invoked, while the effects of listeners that already ran persist.  A
listener is modelled as a state transformer that may throw, and emit
returns the state reached together with the propagated error, if any. -/
def emitListeners {σ ε : Type} : List (σ → Except ε σ) → σ → σ × Option ε
  | [], s => (s, none)
  | h :: rest, s =>
    match h s with
    | Except.ok s1 => emitListeners rest s1
    | Except.error e => (s, some e)

/-- Listener that always throws, standing for a subscriber whose handler
fails (for instance broadcast's envelope serialization throwing on an
unserializable payload, which sits outside the per-connection try block). -/
def throwingListener : Nat → Except String Nat := fun _ => Except.error "handler boom"

/-- Listener that records its invocation by bumping a counter. -/
def countingListener : Nat → Except String Nat := fun n => Except.ok (n + 1)

/-- Claim C3 counterexample: with a throwing subscriber registered before a
counting subscriber, publishing yields the error at the publisher (it is
not caught by the bus) and the counting subscriber is never invoked — the
counter stays 0, whereas alone it would reach 1. -/
theorem listener_error_reaches_publisher_cex :
    emitListeners [throwingListener, countingListener] 0 = (0, some "handler boom")
    ∧ emitListeners [countingListener] 0 = (1, none) := by
  exact ⟨rfl, rfl⟩

/-- Claim C3 (amended): an error thrown by a subscriber's handler is not
caught by the event bus — it propagates synchronously to the publisher,
and the subscribers registered after the throwing one are not invoked for
that event; a subscriber that succeeds passes control to the remaining
subscribers. -/
theorem emit_propagates_and_skips {σ ε : Type} (h : σ → Except ε σ)
    (rest : List (σ → Except ε σ)) (s : σ) :
    (∀ e, h s = Except.error e → emitListeners (h :: rest) s = (s, some e))
    ∧ (∀ s1, h s = Except.ok s1 → emitListeners (h :: rest) s = emitListeners rest s1) := by
  constructor
  · intro e he
    simp [emitListeners, he]
  · intro s1 hs1
    simp [emitListeners, hs1]

/-- Witness for emit_propagates_and_skips on the concrete listeners. -/
theorem emit_propagates_and_skips_witness :
    emitListeners [throwingListener, countingListener] 5 = (5, some "handler boom")
    ∧ emitListeners [countingListener, throwingListener] 5
      = emitListeners [throwingListener] 6 := by
  constructor
  · exact (emit_propagates_and_skips throwingListener [countingListener] 5).1 "handler boom" rfl
  · exact (emit_propagates_and_skips countingListener [throwingListener] 5).2 6 rfl

/-- Session descriptor returned by the external gateway status call
(openclaw-integration.js): the fields the reconciler reads. -/
structure Session where
  sessionId : String
  agentId : Option String
  key : Option String
  model : Option String
  deriving DecidableEq

/-- Agent record with the fields the reconciler reads and writes. -/
structure Agent where
  name : String
  role : String
  status : String
  currentTaskId : Option String
  model : String
  deriving DecidableEq

/-- JS `String.prototype.includes` for a nonempty search string, as used on
session keys. -/
def strIncludes (s sub : String) : Bool := decide (sub.data <:+: s.data)

/-- Optional-chained `key?.includes(sub)`: undefined keys are falsy. -/
def keyIncludes (key : Option String) (sub : String) : Bool :=
  match key with
  | some k => strIncludes k sub
  | none => false

/-- Name extraction of registerOpenClawAgent (openclaw-integration.js
line 51): `key?.split(':').slice(0, 3).join(':') || agentId`; a missing key
or an empty join falls back to the (possibly missing) agentId. -/
def agentNameFromKey (key agentId : Option String) : Option String :=
  match key with
  | some k =>
    let fromKey := String.intercalate ":" ((k.splitOn ":").take 3)
    if fromKey != "" then some fromKey else agentId
  | none => agentId

/-- registerOpenClawAgent (openclaw-integration.js lines 47-88): update the
agent of that name to active with the session as currentTaskId, or create
it with a role derived from the key; a failed lookup name (no key, no
agentId) makes the catch return without touching the table.  The
`capabilities` JSON blob and timestamps, which no claim reads, are
omitted. -/
def registerOpenClawAgent (agents : List Agent) (sessionId : String)
    (agentId key model : Option String) : List Agent :=
  match agentNameFromKey key agentId with
  | none => agents
  | some name =>
    if agents.any (fun a => a.name == name) then
      agents.map (fun a =>
        if a.name == name then { a with status := "active", currentTaskId := some sessionId }
        else a)
    else
      agents ++ [{ name := name
                   role := if keyIncludes key ":subagent:" then "subagent" else "main"
                   status := "active"
                   currentTaskId := some sessionId
                   model := match model with | some m => if m != "" then m else "grok-4" | none => "grok-4" }]

/-- First loop of syncOpenClawAgents (openclaw-integration.js lines
100-122): each fetched session that is not yet in the known map is added to
it, and registered as an agent when its key marks a subagent or direct
session. -/
def processSessions :
    List Session → List (String × Session) → List Agent → List (String × Session) × List Agent
  | [], known, agents => (known, agents)
  | session :: rest, known, agents =>
    if known.any (fun kv => kv.1 == session.sessionId) then
      processSessions rest known agents
    else
      processSessions rest (known ++ [(session.sessionId, session)])
        (if keyIncludes session.key ":subagent:" || keyIncludes session.key ":direct:" then
          registerOpenClawAgent agents session.sessionId session.agentId session.key session.model
        else agents)

/-- Status write of the vanished-session loop: agents whose currentTaskId
equals the vanished sessionId are set offline (prisma updateMany, lines
132-135). -/
def markOffline (sessionId : String) (a : Agent) : Agent :=
  if a.currentTaskId == some sessionId then { a with status := "offline" } else a

/-- Second loop of syncOpenClawAgents (openclaw-integration.js lines
125-140): every known entry whose sessionId no longer appears in the
fetched list and whose key marks a subagent is deleted from the known map,
and the matching agents are set offline.  The first argument list is the
snapshot of entries being iterated, the second the evolving map. -/
def removeVanished (sessions : List Session) :
    List (String × Session) → List (String × Session) → List Agent →
      List (String × Session) × List Agent
  | [], known, agents => (known, agents)
  | kv :: rest, known, agents =>
    if !(sessions.any (fun s => s.sessionId == kv.1)) && keyIncludes kv.2.key ":subagent:" then
      removeVanished sessions rest (known.filter (fun e => !(e.1 == kv.1)))
        (agents.map (markOffline kv.1))
    else
      removeVanished sessions rest known agents

/-- fetchOpenClawSessions (openclaw-integration.js lines 27-41): `none`
stands for any failure of the external query (process unavailable, timeout,
malformed output), which the catch turns into an empty session list; `some`
carries the parsed `status.sessions.recent`. -/
def fetchOpenClawSessions (raw : Option (List Session)) : List Session := raw.getD []

/-- One poll cycle, syncOpenClawAgents (openclaw-integration.js lines
94-143): fetch, register new sessions, then sweep vanished subagent
sessions over the updated known map. -/
def syncOpenClawAgents (fetched : Option (List Session)) (known : List (String × Session))
    (agents : List Agent) : List (String × Session) × List Agent :=
  let sessions := fetchOpenClawSessions fetched
  let p1 := processSessions sessions known agents
  removeVanished sessions p1.1 p1.1 p1.2

/-- Known subagent session used in the failed-poll counterexample. -/
def sess1 : Session :=
  { sessionId := "s1", agentId := some "scout", key := some "atlas:subagent:scout",
    model := some "m1" }

/-- Active agent correlated to sess1 through currentTaskId. -/
def agent1 : Agent :=
  { name := "atlas:subagent:scout", role := "subagent", status := "active",
    currentTaskId := some "s1", model := "m1" }

/-- Claim C1 counterexample: a poll cycle whose external query fails does
change state — the known subagent session s1 is removed from the map and
its agent is marked offline, because the failed fetch is indistinguishable
from an empty session list. -/
theorem failed_poll_marks_offline_cex :
    ((syncOpenClawAgents none [("s1", sess1)] [agent1]).1 = [])
    ∧ ((syncOpenClawAgents none [("s1", sess1)] [agent1]).2
        = [{ agent1 with status := "offline" }]) := by
  decide

/-- Status updates preserve the session correlation field. -/
theorem agent_set_status_currentTaskId (a : Agent) (st : String) :
    ({ a with status := st } : Agent).currentTaskId = a.currentTaskId := rfl

/-- Accumulator characterization of the vanished-session sweep against an
empty fetched list. -/
theorem removeVanished_nil_sessions (iter : List (String × Session)) :
    ∀ (known : List (String × Session)) (agents : List Agent),
    removeVanished [] iter known agents =
      (known.filter (fun e => !(iter.any (fun kv => keyIncludes kv.2.key ":subagent:" && kv.1 == e.1))),
       agents.map (fun a =>
        if iter.any (fun kv => keyIncludes kv.2.key ":subagent:" && a.currentTaskId == some kv.1) then
          { a with status := "offline" }
        else a)) := by
  induction iter with
  | nil =>
    intro known agents
    simp [removeVanished]
  | cons kv rest ih =>
    intro known agents
    by_cases hsub : keyIncludes kv.2.key ":subagent:" = true
    · have hcond : (!(List.any ([] : List Session) (fun s => s.sessionId == kv.1)) && keyIncludes kv.2.key ":subagent:") = true := by
        simp [hsub]
      have hstep : removeVanished [] (kv :: rest) known agents
          = removeVanished [] rest (known.filter (fun e => !(e.1 == kv.1)))
              (agents.map (markOffline kv.1)) := by
        simp only [removeVanished, hcond, if_true]
      rw [hstep, ih]
      simp only [Prod.mk.injEq]
      refine ⟨?_, ?_⟩
      · rw [List.filter_filter]
        apply List.filter_congr
        intro e _
        by_cases he : e.1 = kv.1
        · simp [hsub, he]
        · have h1 : (e.1 == kv.1) = false := by simp [he]
          have h2 : (kv.1 == e.1) = false := by simp [Ne.symm he]
          simp [hsub, h1, h2, Bool.and_comm]
      · rw [List.map_map]
        apply List.map_congr_left
        intro a _
        by_cases hm : (a.currentTaskId == some kv.1) = true
        · have hoff : markOffline kv.1 a = { a with status := "offline" } := by
            simp only [markOffline, hm, if_true]
          have hany : ((kv :: rest).any
              (fun kv2 => keyIncludes kv2.2.key ":subagent:" && a.currentTaskId == some kv2.1)) = true := by
            simp [hsub, hm]
          simp only [Function.comp_apply, hoff, hany, if_true]
          split <;> rfl
        · have hm2 : (a.currentTaskId == some kv.1) = false := by
            simpa using hm
          have hoff : markOffline kv.1 a = a := by
            simp only [markOffline, hm2, Bool.false_eq_true, if_false]
          have hany : ((kv :: rest).any
                (fun kv2 => keyIncludes kv2.2.key ":subagent:" && a.currentTaskId == some kv2.1))
              = (rest.any (fun kv2 => keyIncludes kv2.2.key ":subagent:" && a.currentTaskId == some kv2.1)) := by
            simp [hm2]
          simp only [Function.comp_apply, hoff, hany]
    · have hsub2 : keyIncludes kv.2.key ":subagent:" = false := by
        simpa using hsub
      have hcond : (!(List.any ([] : List Session) (fun s => s.sessionId == kv.1)) && keyIncludes kv.2.key ":subagent:") = false := by
        simp [hsub2]
      have hstep : removeVanished [] (kv :: rest) known agents
          = removeVanished [] rest known agents := by
        simp only [removeVanished, hcond, Bool.false_eq_true, if_false]
      rw [hstep, ih]
      simp only [Prod.mk.injEq]
      refine ⟨?_, ?_⟩
      · apply List.filter_congr
        intro e _
        simp [hsub2]
      · apply List.map_congr_left
        intro a _
        simp only [List.any_cons, hsub2, Bool.false_and, Bool.false_or]

/-- Claim C1 (amended): a poll cycle whose external query fails proceeds
exactly like a poll that observed zero sessions — nothing is registered,
but every known session whose key marks a subagent is removed from the
known map and every agent whose currentTaskId equals such a sessionId is
marked offline; known non-subagent sessions and all other agents are left
unchanged. -/
theorem failed_poll_proceeds_as_empty (known : List (String × Session)) (agents : List Agent) :
    syncOpenClawAgents none known agents =
      (known.filter (fun e => !(known.any (fun kv => keyIncludes kv.2.key ":subagent:" && kv.1 == e.1))),
       agents.map (fun a =>
        if known.any (fun kv => keyIncludes kv.2.key ":subagent:" && a.currentTaskId == some kv.1) then
          { a with status := "offline" }
        else a)) := by
  show removeVanished [] known known agents = _
  exact removeVanished_nil_sessions known known agents

/-- Atomic events of one cache key of the volatile status cache
(backend/src/index.js lines 1295-1316 for healthCache/healthPending and
1348-1378 for sessionsCache/sessionsPending).  The JS event loop runs each
of these sections without preemption: the synchronous body of a GET
handler up to returning a value or creating the pending promise (`req`),
the `.then` continuation of a successful external call (`complete`), and
the `.catch` continuation of a failed one (`fail`). -/
inductive CacheEvent (R : Type) where
  | req (id : Nat) (now : Nat)
  | complete (r : R) (now : Nat)
  | fail
  deriving DecidableEq

/-- State of one cache key: the `{result, ts}` cache cell and whether a
pending promise exists, together with observables — the callers currently
awaiting the pending promise, the number of external calls in flight, the
number of external calls ever issued, and the responses handed to callers. -/
structure CacheState (R : Type) where
  result : Option R
  ts : Nat
  pending : Bool
  waiters : List Nat
  outstanding : Nat
  calls : Nat
  served : List (Nat × R)
  deriving DecidableEq

/-- Freshness test of the handler: `Date.now() - cache.ts < 30000 &&
cache.result` (a result object is truthy exactly when present). -/
def cacheFresh {R : Type} (s : CacheState R) (now : Nat) : Bool :=
  decide (now - s.ts < 30000) && s.result.isSome

/-- One atomic transition of the cache key.  A `req` returns the cached
value when fresh, otherwise joins the pending promise when one exists,
otherwise creates it and issues the single external call.  `complete`
stores the result with a fresh timestamp, clears the pending promise and
releases every waiter with the same value.  `fail` clears the pending
promise and releases the waiters with the last-known-good value or, on a
cold cache, the default (`disconnected` / empty session list). -/
def cacheStep {R : Type} (dflt : R) (s : CacheState R) : CacheEvent R → CacheState R
  | CacheEvent.req id now =>
    if cacheFresh s now then
      { s with served := (id, s.result.getD dflt) :: s.served }
    else if s.pending then
      { s with waiters := id :: s.waiters }
    else
      { s with pending := true, waiters := [id], outstanding := s.outstanding + 1,
               calls := s.calls + 1 }
  | CacheEvent.complete r now =>
    if s.pending then
      { s with result := some r, ts := now, pending := false, waiters := [],
               outstanding := s.outstanding - 1,
               served := s.waiters.map (fun i => (i, r)) ++ s.served }
    else s
  | CacheEvent.fail =>
    if s.pending then
      { s with pending := false, waiters := [],
               outstanding := s.outstanding - 1,
               served := s.waiters.map (fun i => (i, s.result.getD dflt)) ++ s.served }
    else s

/-- Run of a sequence of atomic cache events. -/
def cacheRun {R : Type} (dflt : R) (s : CacheState R) (events : List (CacheEvent R)) :
    CacheState R :=
  events.foldl (cacheStep dflt) s

/-- Initial state of a cache key: `{ result: null, ts: 0 }`, no pending
promise. -/
def cacheInit {R : Type} : CacheState R :=
  { result := none, ts := 0, pending := false, waiters := [], outstanding := 0,
    calls := 0, served := [] }

/-- One step preserves the correspondence between in-flight external calls
and the pending promise. -/
theorem cacheStep_outstanding_inv {R : Type} (dflt : R) (s : CacheState R) (ev : CacheEvent R)
    (h : s.outstanding = if s.pending then 1 else 0) :
    (cacheStep dflt s ev).outstanding = if (cacheStep dflt s ev).pending then 1 else 0 := by
  cases ev with
  | req id now =>
    by_cases hf : cacheFresh s now = true
    · simpa [cacheStep, hf] using h
    · have hf2 : cacheFresh s now = false := by simpa using hf
      by_cases hp : s.pending = true
      · simpa [cacheStep, hf2, hp] using h
      · have hp2 : s.pending = false := by simpa using hp
        have h0 : s.outstanding = 0 := by simpa [hp2] using h
        simp [cacheStep, hf2, hp2, h0]
  | complete r now =>
    by_cases hp : s.pending = true
    · have h1 : s.outstanding = 1 := by simpa [hp] using h
      simp [cacheStep, hp, h1]
    · have hp2 : s.pending = false := by simpa using hp
      simpa [cacheStep, hp2] using h
  | fail =>
    by_cases hp : s.pending = true
    · have h1 : s.outstanding = 1 := by simpa [hp] using h
      simp [cacheStep, hp, h1]
    · have hp2 : s.pending = false := by simpa using hp
      simpa [cacheStep, hp2] using h

/-- The correspondence holds along any run. -/
theorem cacheRun_outstanding_inv {R : Type} (dflt : R) (events : List (CacheEvent R)) :
    ∀ s : CacheState R, s.outstanding = (if s.pending then 1 else 0) →
      (cacheRun dflt s events).outstanding
        = if (cacheRun dflt s events).pending then 1 else 0 := by
  induction events with
  | nil => intro s h; exact h
  | cons ev rest ih =>
    intro s h
    exact ih (cacheStep dflt s ev) (cacheStep_outstanding_inv dflt s ev h)

/-- Requests arriving while a refresh is pending and the cache is stale all
join the pending promise and change nothing else. -/
theorem cacheRun_reqs_join {R : Type} (dflt : R) (now : Nat) (ids : List Nat) :
    ∀ s : CacheState R, s.pending = true → cacheFresh s now = false →
      cacheRun dflt s (ids.map (fun i => CacheEvent.req i now))
        = { s with waiters := ids.reverse ++ s.waiters } := by
  induction ids with
  | nil =>
    intro s _ _
    simp [cacheRun]
  | cons i rest ih =>
    intro s hp hf
    have hstep : cacheStep dflt s (CacheEvent.req i now) = { s with waiters := i :: s.waiters } := by
      simp [cacheStep, hf, hp]
    have hrun : cacheRun dflt s ((i :: rest).map (fun j => CacheEvent.req j now))
        = cacheRun dflt (cacheStep dflt s (CacheEvent.req i now))
            (rest.map (fun j => CacheEvent.req j now)) := rfl
    rw [hrun, hstep, ih { s with waiters := i :: s.waiters } hp hf]
    simp [List.append_assoc]

/-- A burst of requests hitting a stale, idle cache key creates exactly one
pending refresh: the first request issues the single external call and the
rest join it as waiters. -/
theorem cacheRun_miss_burst {R : Type} (dflt : R) (s : CacheState R) (i0 : Nat) (ids : List Nat)
    (now : Nat) (hf : cacheFresh s now = false) (hp : s.pending = false) :
    cacheRun dflt s ((i0 :: ids).map (fun i => CacheEvent.req i now))
      = { s with pending := true, waiters := ids.reverse ++ [i0],
                 outstanding := s.outstanding + 1, calls := s.calls + 1 } := by
  have hstep : cacheStep dflt s (CacheEvent.req i0 now)
      = { s with pending := true, waiters := [i0], outstanding := s.outstanding + 1,
                 calls := s.calls + 1 } := by
    simp [cacheStep, hf, hp]
  have hrun : cacheRun dflt s ((i0 :: ids).map (fun j => CacheEvent.req j now))
      = cacheRun dflt (cacheStep dflt s (CacheEvent.req i0 now))
          (ids.map (fun j => CacheEvent.req j now)) := rfl
  rw [hrun, hstep]
  exact cacheRun_reqs_join dflt now ids
    { s with pending := true, waiters := [i0], outstanding := s.outstanding + 1,
             calls := s.calls + 1 }
    rfl hf

/-- Claim C8: per cache key, at most one external call is outstanding at
any instant along any run from the initial state; N callers that
concurrently miss (stale or cold cache, no pending refresh) trigger exactly
one external call and are all released with the same result value; and a
caller arriving while the entry is fresh is served the cached value with no
state change and no external call. -/
theorem cache_coalescing_spec {R : Type} (dflt : R) :
    (∀ events : List (CacheEvent R),
      (cacheRun dflt cacheInit events).outstanding ≤ 1)
    ∧ (∀ (s : CacheState R) (i0 : Nat) (ids : List Nat) (now tdone : Nat) (r : R),
        cacheFresh s now = false → s.pending = false →
        (cacheRun dflt s
            ((i0 :: ids).map (fun i => CacheEvent.req i now) ++ [CacheEvent.complete r tdone])).calls
          = s.calls + 1
        ∧ ∀ i ∈ i0 :: ids, (i, r) ∈ (cacheRun dflt s
            ((i0 :: ids).map (fun i => CacheEvent.req i now) ++ [CacheEvent.complete r tdone])).served)
    ∧ (∀ (s : CacheState R) (id now : Nat) (v : R),
        now - s.ts < 30000 → s.result = some v →
        cacheStep dflt s (CacheEvent.req id now) = { s with served := (id, v) :: s.served }) := by
  refine ⟨?_, ?_, ?_⟩
  · intro events
    have h := cacheRun_outstanding_inv dflt events cacheInit rfl
    rw [h]
    by_cases hp : (cacheRun dflt cacheInit events).pending = true <;> simp [hp]
  · intro s i0 ids now tdone r hf hp
    have hsplit : cacheRun dflt s
          ((i0 :: ids).map (fun i => CacheEvent.req i now) ++ [CacheEvent.complete r tdone])
        = cacheStep dflt
            (cacheRun dflt s ((i0 :: ids).map (fun i => CacheEvent.req i now)))
            (CacheEvent.complete r tdone) := by
      simp [cacheRun, List.foldl_append]
    rw [hsplit, cacheRun_miss_burst dflt s i0 ids now hf hp]
    have hcomp : cacheStep dflt
          { s with pending := true, waiters := ids.reverse ++ [i0],
                   outstanding := s.outstanding + 1, calls := s.calls + 1 }
          (CacheEvent.complete r tdone)
        = { s with result := some r, ts := tdone, pending := false, waiters := [],
                   outstanding := s.outstanding + 1 - 1, calls := s.calls + 1,
                   served := (ids.reverse ++ [i0]).map (fun i => (i, r)) ++ s.served } := by
      simp [cacheStep]
    rw [hcomp]
    refine ⟨rfl, ?_⟩
    intro i hi
    have hmem : i ∈ ids.reverse ++ [i0] := by
      rcases List.mem_cons.mp hi with rfl | hin
      · simp
      · simp [hin]
    exact List.mem_append_left _ (List.mem_map.mpr ⟨i, hmem, rfl⟩)
  · intro s id now v h1 h2
    have hf : cacheFresh s now = true := by
      simp [cacheFresh, h1, h2]
    simp [cacheStep, hf, h2]

/-- Populated cache cell used in the coalescing witness. -/
def freshCell : CacheState Nat :=
  { result := some 9, ts := 10, pending := false, waiters := [], outstanding := 0,
    calls := 1, served := [] }

/-- Witness for cache_coalescing_spec: three concurrent misses on the cold
cache issue one call and all three are served the completed value 7, and a
request within the TTL of a populated cell is served from the cache. -/
theorem cache_coalescing_spec_witness :
    ((cacheRun (0 : Nat) cacheInit
        ([1, 2, 3].map (fun i => CacheEvent.req i 0) ++ [CacheEvent.complete 7 5])).calls
      = (cacheInit : CacheState Nat).calls + 1)
    ∧ ((2, 7) ∈ (cacheRun (0 : Nat) cacheInit
        ([1, 2, 3].map (fun i => CacheEvent.req i 0) ++ [CacheEvent.complete 7 5])).served)
    ∧ (cacheStep (0 : Nat) freshCell (CacheEvent.req 4 11)
        = { freshCell with served := [(4, 9)] }) := by
  refine ⟨?_, ?_, ?_⟩
  · exact ((cache_coalescing_spec (0 : Nat)).2.1 cacheInit 1 [2, 3] 0 5 7 (by decide) rfl).1
  · exact ((cache_coalescing_spec (0 : Nat)).2.1 cacheInit 1 [2, 3] 0 5 7 (by decide) rfl).2
      2 (by simp)
  · exact (cache_coalescing_spec (0 : Nat)).2.2 freshCell 4 11 9 (by decide) rfl

end AgenticOps
